import Mathlib

/-!
Shallow embedding of the wig deck-assembly companion
(src/mcnp_companion/mcnp_companion.py) and its run coordinator
(src/mcnp_companion/runner.py), with theorems settling the spec claims.

Python attributes that the constructor never initializes (data_block,
def_num) are modelled as Option fields holding none; reading such a field
while it is none is the embedding of a Python AttributeError, the failure
the spec calls MissingStateError.  Methods that can fail return Except.
Stdout printing in the source is a side effect with no bearing on state
and is not modelled.
-/

namespace mcnp_companion

/-- ASCII whitespace recognized by the Python str.split() / str.isspace
machinery: space, tab, newline, carriage return, vertical tab, form feed. -/
def isPySpace (c : Char) : Bool :=
  c = ' ' || c = '\t' || c = '\n' || c = '\r' || c = '\x0b' || c = '\x0c'

/-- Splitting a character list on runs of whitespace, discarding empty
pieces, as Python str.split() with no arguments does.  The accumulator
holds the current word reversed. -/
def splitWs : List Char → List Char → List (List Char)
  | [], [] => []
  | [], cur => [cur.reverse]
  | c :: rest, cur =>
    if isPySpace c then
      match cur with
      | [] => splitWs rest []
      | _ :: _ => cur.reverse :: splitWs rest []
    else splitWs rest (c :: cur)

/-- Python str.split() with no arguments. -/
def pySplit (s : String) : List String := (splitWs s.data []).map String.mk

/-- The expression joining a split with single spaces, used at line 6 of
mcnp_companion.py to collapse whitespace runs in the header comment. -/
def normalizeWs (s : String) : String := String.intercalate " " (pySplit s)

/-- Greedy line filling over the words of a text, each line carrying the
given indent, lines capped at the given width.  This embeds the behavior
of textwrap.TextWrapper(...).fill for the options used at lines 28-29 of
mcnp_companion.py (replace_whitespace on, drop_whitespace on) on inputs
whose words fit the width; breaking of over-long words is not modelled,
as no claim exercises it. -/
def wrapAux (indent : String) (width : Nat) : List String → String → List String
  | [], line => [line]
  | w :: ws, line =>
    if line.length + 1 + w.length ≤ width then
      wrapAux indent width ws (line ++ " " ++ w)
    else
      line :: wrapAux indent width ws (indent ++ w)

/-- textwrap fill with an initial indent, a subsequent indent and a width:
the filled lines joined by newlines, the empty string when the text holds
no words. -/
def textwrapFill (ii si : String) (width : Nat) (text : String) : String :=
  match pySplit text with
  | [] => ""
  | w :: ws => String.intercalate "\n" (wrapAux si width ws (ii ++ w))

/-- Python str.center(width, fill): the string unchanged when it already
fills the width, otherwise padded with the fill character, the left pad
being marg / 2 + (marg AND width AND 1) as in CPython. -/
def pycenter (s : String) (width : Nat) (fill : Char) : String :=
  if width ≤ s.length then s
  else
    let marg := width - s.length
    let left := marg / 2 + (marg &&& width &&& 1)
    String.mk (List.replicate left fill) ++ s ++ String.mk (List.replicate (marg - left) fill)

/-- A geometry entity: caller-supplied comment and content string, with
the num attribute stamped by the geo operation (none until then). -/
structure GeoEnt where
  comment : String
  string : String
  num : Option Nat := none

/-- A material entity, mirroring GeoEnt for the matl operation. -/
structure MatlEnt where
  comment : String
  string : String
  num : Option Nat := none

/-- A source distribution entity with its content string. -/
structure DistEnt where
  string : String

/-- A source entity: content string (with a percent-d placeholder for its
definition number) and its attached distributions. -/
structure SourceEnt where
  string : String
  dists : List DistEnt

/-- The failures Python can raise in the embedded methods: reading an
attribute never set (AttributeError, the MissingStateError of the spec
taxonomy) and percent-formatting mismatches (TypeError). -/
inductive PyError where
  | attributeError (name : String)
  | typeError (msg : String)
deriving DecidableEq

/-- The instance state of class mcnp_companion.  Fields set by __init__
are plain; data_block and def_num are never initialized by __init__ and
so are Option, none meaning the attribute does not exist yet. -/
structure Deck where
  comment : String
  filename : String
  command : Option String
  intro_block : String
  geo_block : String
  cell_block : String
  matl_block : String
  geo_num : Option Nat
  matl_num : Option Nat
  data_block : Option String
  def_num : Option Nat
deriving DecidableEq

/-- The flavor dispatch of __init__ (lines 10-15): string comparison
against 6, 5 and x selects the engine binary; an unrecognized flavor
falls through every branch and the command attribute is never assigned,
modelled as none.  No error is raised. -/
def flavorCommand (flavor : String) : Option String :=
  if flavor = "6" then some "mcnp6"
  else if flavor = "5" then some "mcnp5"
  else if flavor = "x" then some "mcnpx"
  else none

/-- mcnp_companion.__init__ (lines 5-23): collapse whitespace in the
comment, record the filename, dispatch the flavor, create the four block
strings empty, then append the collapsed comment to the intro block. -/
def init (comment filename flavor : String) : Deck :=
  let c := normalizeWs comment
  { comment := c
    filename := filename
    command := flavorCommand flavor
    intro_block := "" ++ c
    geo_block := ""
    cell_block := ""
    matl_block := ""
    geo_num := none
    matl_num := none
    data_block := none
    def_num := none }

/-- The loop body of mcnp_companion.geo (lines 50-60) folded over the
entity list: append comment line, number with four trailing spaces and
content line to the block, stamp the entity with the current number, and
step the counter by 10.  Returns the grown block, the stamped entities in
order, and the counter value after the loop. -/
def geoFold : List GeoEnt → String → Nat → String × List GeoEnt × Nat
  | [], blk, n => (blk, [], n)
  | g :: gs, blk, n =>
    let blk2 := blk ++ g.comment ++ "\n" ++ toString n ++ "    " ++ g.string ++ "\n"
    let r := geoFold gs blk2 (n + 10)
    (r.1, { g with num := some n } :: r.2.1, r.2.2)

/-- mcnp_companion.geo (lines 47-60): the counter is re-initialized to 10
at the top of every call (line 49), then the loop appends each entity to
the geometry block. -/
def geo (st : Deck) (geos : List GeoEnt) : Deck × List GeoEnt :=
  let r := geoFold geos st.geo_block 10
  ({ st with geo_block := r.1, geo_num := some r.2.2 }, r.2.1)

/-- mcnp_companion.cell (lines 62-64): the body is pass. -/
def cell (st : Deck) : Deck := st

/-- The loop body of mcnp_companion.matl (lines 69-79) folded over the
entity list: append comment line, m-prefixed number with one trailing
space and content line, stamp the entity, step the counter by 1. -/
def matlFold : List MatlEnt → String → Nat → String × List MatlEnt × Nat
  | [], blk, n => (blk, [], n)
  | m :: ms, blk, n =>
    let blk2 := blk ++ m.comment ++ "\n" ++ "m" ++ toString n ++ " " ++ m.string ++ "\n"
    let r := matlFold ms blk2 (n + 1)
    (r.1, { m with num := some n } :: r.2.1, r.2.2)

/-- mcnp_companion.matl (lines 66-79): the counter is re-initialized to 1
at the top of every call (line 68), then the loop appends each entity to
the material block. -/
def matl (st : Deck) (matls : List MatlEnt) : Deck × List MatlEnt :=
  let r := matlFold matls st.matl_block 1
  ({ st with matl_block := r.1, matl_num := some r.2.2 }, r.2.1)

/-- Python percent-formatting of a string against one integer argument,
restricted to the conversions the deck sources use: each percent-d is
replaced by the decimal rendering of the argument and must occur exactly
once, a doubled percent renders a literal percent sign.  A second
percent-d raises TypeError (not enough arguments); none at all raises
TypeError (not all arguments converted). -/
def pyModChars (n : Nat) : List Char → Bool → Except PyError (List Char)
  | [], used => if used then .ok [] else .error (.typeError "not all arguments converted")
  | '%' :: 'd' :: rest, used =>
    if used then .error (.typeError "not enough arguments")
    else (pyModChars n rest true).map (fun r => (toString n).data ++ r)
  | '%' :: '%' :: rest, used => (pyModChars n rest used).map (fun r => '%' :: r)
  | c :: rest, used => (pyModChars n rest used).map (fun r => c :: r)

/-- String wrapper around pyModChars. -/
def pyMod (s : String) (n : Nat) : Except PyError String :=
  (pyModChars n s.data false).map String.mk

/-- The inner distribution loop of mcnp_companion.source (lines 88-92):
append an sp line per distribution and step the definition counter. -/
def distFold : List DistEnt → String → Nat → String × Nat
  | [], db, dn => (db, dn)
  | d :: rest, db, dn =>
    distFold rest (db ++ "     sp" ++ toString dn ++ "    " ++ "     " ++ d.string ++ "\n") (dn + 1)

/-- The outer loop of mcnp_companion.source (lines 82-92) once the
data_block and def_num attributes have been read: per source an sdef line
with the definition number substituted into the content, then the
distribution lines. -/
def sourceFold : List SourceEnt → String → Nat → Except PyError (String × Nat)
  | [], db, dn => .ok (db, dn)
  | s :: rest, db, dn => do
    let formatted ← pyMod s.string dn
    let db2 := db ++ "sdef    " ++ formatted ++ "\n"
    let r := distFold s.dists db2 dn
    sourceFold rest r.1 r.2

/-- mcnp_companion.source (lines 81-92).  With a non-empty source list the
first loop iteration reads self.data_block and self.def_num, attributes
that __init__ never creates: when either is none the read raises
AttributeError (the MissingStateError of the spec) before anything is
appended; when both exist the loops run.  An empty list skips the loop
body entirely and the state is untouched. -/
def source (st : Deck) (sources : List SourceEnt) : Except PyError Deck :=
  match sources with
  | [] => .ok st
  | _ :: _ =>
    match st.data_block with
    | none => .error (.attributeError "data_block")
    | some db =>
      match st.def_num with
      | none => .error (.attributeError "def_num")
      | some dn => do
        let r ← sourceFold sources db dn
        .ok { st with data_block := some r.1, def_num := some r.2 }

/-- mcnp_companion.run (lines 25-44): the text written to filename.inp,
assembled exactly in the write order of the source - title line, wrapped
intro, Cells banner, Geometry banner and block, Data banner, Materials
banner and block, with the blank separator lines of the source. -/
def run (st : Deck) : String :=
  st.filename ++ "\n"
    ++ textwrapFill "c " "c " 80 st.intro_block
    ++ "\n"
    ++ ("c " ++ pycenter " Cells " 78 '-' ++ "\n")
    ++ "\n"
    ++ ("c " ++ pycenter " Geometry " 78 '-' ++ "\n")
    ++ st.geo_block
    ++ "\n"
    ++ ("c " ++ pycenter " Data " 78 '-' ++ "\n")
    ++ ("c " ++ pycenter " Materials " 78 '-' ++ "\n")
    ++ st.matl_block
    ++ "\n"

/-- mcnp_companion.run as a state transformer: the method writes the
rendered text to a file and assigns no attribute of self, so the deck it
leaves behind is the deck it was given. -/
def runState (st : Deck) : String × Deck := (run st, st)

/-- Decks constructible through the public operations: __init__ creates
one, and geo, matl, cell, run and a successful source return one. -/
inductive Reachable : Deck → Prop
  | mk_init (comment filename flavor : String) : Reachable (init comment filename flavor)
  | step_geo (st : Deck) (gs : List GeoEnt) : Reachable st → Reachable (geo st gs).1
  | step_matl (st : Deck) (ms : List MatlEnt) : Reachable st → Reachable (matl st ms).1
  | step_cell (st : Deck) : Reachable st → Reachable (cell st)
  | step_run (st : Deck) : Reachable st → Reachable (runState st).2
  | step_source (st st2 : Deck) (ss : List SourceEnt) :
      Reachable st → source st ss = .ok st2 → Reachable st2

/-- The outcome of __init__ with the failure channel the spec prescribes
made explicit, so that failing and succeeding constructions can be told
apart in one type. -/
inductive InitOutcome where
  | ok (d : Deck)
  | error_UnsupportedEngine
deriving DecidableEq

/-- mcnp_companion.__init__ viewed through InitOutcome: the source body
contains no raise statement on any path, so the outcome is always ok,
whatever the flavor selector is. -/
def initOutcome (comment filename flavor : String) : InitOutcome :=
  InitOutcome.ok (init comment filename flavor)

/-- Modelled from the spec: the __init__ outcome section 6 of the spec
prescribes, failing with UnsupportedEngineError when the selector is
outside the supported set; stated for comparison with initOutcome. -/
def initOutcomeSpec (comment filename flavor : String) : InitOutcome :=
  match flavorCommand flavor with
  | some _ => InitOutcome.ok (init comment filename flavor)
  | none => InitOutcome.error_UnsupportedEngine

end mcnp_companion

namespace runner

/-- The engine command line built by runner.__init__ (lines 13-16): nohup,
the engine command, the four artifact bindings derived from the filename,
and the shell backgrounding suffix. -/
def buildCmd (filename command : String) : String :=
  "nohup " ++ command ++ " inp=" ++ filename ++ ".inp " ++
    "out=" ++ filename ++ ".out " ++
    "run=" ++ filename ++ "_runtpe " ++
    "mctal=" ++ filename ++ "_tallies.out & disown"

/-- The command-line shape stated by the spec for the engine invocation,
for comparison with buildCmd: engine command followed by the inp, out,
run and mctal bindings, each path derived from the deck filename. -/
def specInvocationForm (filename command : String) : String :=
  command ++ " inp=" ++ filename ++ ".inp " ++
    "out=" ++ filename ++ ".out " ++
    "run=" ++ filename ++ "_runtpe " ++
    "mctal=" ++ filename ++ "_tallies.out"

/-- The decision outcome of the run coordinator. -/
inductive Decision where
  | SKIP
  | LAUNCH
deriving DecidableEq

/-- The launch decision taken by runner.__init__ (lines 9, 22-27):
needs_to_run is set to True at line 9; the prior-artifact check at lines
22-24 is a stub whose body is pass, leaving needs_to_run unchanged
whether or not a renderer collaborator is present; Popen runs exactly
when needs_to_run holds.  The renderer argument carries the prior
artifact lookup the spec describes; the stub never consults it. -/
def decide (renderer : Option (String → Option String)) : Decision :=
  let needs_to_run := true
  let needs_to_run :=
    match renderer with
    | some _ => needs_to_run
    | none => needs_to_run
  if needs_to_run then Decision.LAUNCH else Decision.SKIP

end runner

open mcnp_companion

/-- The deck of the spec scenario right after construction: title (the
filename written as the first line) Shield Model, header comment with a
run of extra spaces, flavor 6. -/
def shieldDeck0 : Deck :=
  init "Simple shielding test case with extra   spaces" "Shield Model" "6"

/-- The scenario deck after adding its one geometry entity, paired with
the stamped entity list. -/
def shieldGeo : Deck × List GeoEnt :=
  geo shieldDeck0 [{ comment := "outer sphere", string := "-1 SO 10" }]

/-- The scenario deck after adding its one material entity, paired with
the stamped entity list. -/
def shieldMatl : Deck × List MatlEnt :=
  matl shieldGeo.1 [{ comment := "lead", string := "82000 1" }]

/-- The numbers stamped by one pass of the geometry loop started at n are
n, n + 10, n + 20, ... in insertion order, independent of the block text. -/
theorem geoFold_nums (gs : List GeoEnt) : ∀ blk n,
    ((geoFold gs blk n).2.1).map (fun g => g.num)
      = (List.range gs.length).map (fun i => some (n + 10 * i)) := by
  induction gs with
  | nil => intro blk n; simp [geoFold]
  | cons g rest ih =>
    intro blk n
    simp only [geoFold, List.map_cons, List.length_cons, List.range_succ_eq_map,
      List.map_map, ih]
    congr 1
    simp
    intro a _
    omega

/-- The numbers stamped by one pass of the material loop started at n are
n, n + 1, n + 2, ... in insertion order. -/
theorem matlFold_nums (ms : List MatlEnt) : ∀ blk n,
    ((matlFold ms blk n).2.1).map (fun m => m.num)
      = (List.range ms.length).map (fun i => some (n + i)) := by
  induction ms with
  | nil => intro blk n; simp [matlFold]
  | cons m rest ih =>
    intro blk n
    simp only [matlFold, List.map_cons, List.length_cons, List.range_succ_eq_map,
      List.map_map, ih]
    congr 1
    simp
    intro a _
    omega

/-- The geometry loop only ever appends: its starting block is a prefix of
the block it returns. -/
theorem geoFold_extends (gs : List GeoEnt) : ∀ blk n,
    ∃ suf, (geoFold gs blk n).1 = blk ++ suf := by
  induction gs with
  | nil => intro blk n; exact ⟨"", by simp [geoFold]⟩
  | cons g rest ih =>
    intro blk n
    obtain ⟨suf, hs⟩ :=
      ih (blk ++ g.comment ++ "\n" ++ toString n ++ "    " ++ g.string ++ "\n") (n + 10)
    refine ⟨g.comment ++ "\n" ++ toString n ++ "    " ++ g.string ++ "\n" ++ suf, ?_⟩
    simp only [geoFold]
    rw [hs]
    simp only [String.append_assoc]

/-- The material loop only ever appends. -/
theorem matlFold_extends (ms : List MatlEnt) : ∀ blk n,
    ∃ suf, (matlFold ms blk n).1 = blk ++ suf := by
  induction ms with
  | nil => intro blk n; exact ⟨"", by simp [matlFold]⟩
  | cons m rest ih =>
    intro blk n
    obtain ⟨suf, hs⟩ :=
      ih (blk ++ m.comment ++ "\n" ++ "m" ++ toString n ++ " " ++ m.string ++ "\n") (n + 1)
    refine ⟨m.comment ++ "\n" ++ "m" ++ toString n ++ " " ++ m.string ++ "\n" ++ suf, ?_⟩
    simp only [matlFold]
    rw [hs]
    simp only [String.append_assoc]

/-- Each geometry entity of the list has its content verbatim inside the
block returned by the geometry loop. -/
theorem geoFold_contains (gs : List GeoEnt) : ∀ blk n, ∀ g ∈ gs,
    ∃ p q, (geoFold gs blk n).1 = p ++ g.string ++ q := by
  induction gs with
  | nil => intro _ _ _ h; cases h
  | cons g0 rest ih =>
    intro blk n g hmem
    rcases List.mem_cons.mp hmem with heq | hmem2
    · subst heq
      obtain ⟨suf, hs⟩ :=
        geoFold_extends rest
          (blk ++ g.comment ++ "\n" ++ toString n ++ "    " ++ g.string ++ "\n") (n + 10)
      refine ⟨blk ++ g.comment ++ "\n" ++ toString n ++ "    ", "\n" ++ suf, ?_⟩
      simp only [geoFold]
      rw [hs]
      simp only [String.append_assoc]
    · obtain ⟨p, q, hp⟩ :=
        ih (blk ++ g0.comment ++ "\n" ++ toString n ++ "    " ++ g0.string ++ "\n") (n + 10)
          g hmem2
      exact ⟨p, q, by simp only [geoFold, hp]⟩

/-- Each material entity of the list has its content verbatim inside the
block returned by the material loop. -/
theorem matlFold_contains (ms : List MatlEnt) : ∀ blk n, ∀ m ∈ ms,
    ∃ p q, (matlFold ms blk n).1 = p ++ m.string ++ q := by
  induction ms with
  | nil => intro _ _ _ h; cases h
  | cons m0 rest ih =>
    intro blk n m hmem
    rcases List.mem_cons.mp hmem with heq | hmem2
    · subst heq
      obtain ⟨suf, hs⟩ :=
        matlFold_extends rest
          (blk ++ m.comment ++ "\n" ++ "m" ++ toString n ++ " " ++ m.string ++ "\n") (n + 1)
      refine ⟨blk ++ m.comment ++ "\n" ++ "m" ++ toString n ++ " ", "\n" ++ suf, ?_⟩
      simp only [matlFold]
      rw [hs]
      simp only [String.append_assoc]
    · obtain ⟨p, q, hp⟩ :=
        ih (blk ++ m0.comment ++ "\n" ++ "m" ++ toString n ++ " " ++ m0.string ++ "\n") (n + 1)
          m hmem2
      exact ⟨p, q, by simp only [matlFold, hp]⟩

/-- No operation of the companion ever creates the data_block or def_num
attributes: every deck constructible through the API still lacks both. -/
theorem reachable_no_data (st : Deck) (h : Reachable st) :
    st.data_block = none ∧ st.def_num = none := by
  induction h with
  | mk_init c f fl => exact ⟨rfl, rfl⟩
  | step_geo st gs _ ih => simpa [geo] using ih
  | step_matl st ms _ ih => simpa [matl] using ih
  | step_cell st _ ih => simpa [cell] using ih
  | step_run st _ ih => simpa [runState] using ih
  | step_source st st2 ss _ heq ih =>
    cases ss with
    | nil =>
      simp only [source, Except.ok.injEq] at heq
      exact heq ▸ ih
    | cons s rest =>
      rw [source, ih.1] at heq
      cases heq

/-- C1 (amended): within a single call of the geo operation the assigned
numbers are 10, 20, ..., 10N in insertion order and are pairwise distinct.
The original claim extends this across successive calls on one deck,
which fails because line 49 re-initializes the counter to 10 on every
call; see the counterexample theorem. -/
theorem C1_geo_ids_within_one_call (st : Deck) (gs : List GeoEnt) :
    (geo st gs).2.map (fun g => g.num)
        = (List.range gs.length).map (fun i => some (10 * (i + 1)))
      ∧ ((geo st gs).2.map (fun g => g.num)).Nodup := by
  have h : (geo st gs).2.map (fun g => g.num)
      = (List.range gs.length).map (fun i => some (10 * (i + 1))) := by
    simp only [geo]
    rw [geoFold_nums]
    apply List.map_congr_left
    intro i _
    simp only [Option.some.injEq]
    omega
  refine ⟨h, ?_⟩
  rw [h]
  exact (List.nodup_range _).map fun a b hab => by
    simp only [Option.some.injEq] at hab
    omega

/-- C1 counterexample: two successive single-entity geo calls on the same
deck both assign the number 10, so the ids of the N = 2 entities added
across the two calls are 10 and 10 - not 10 and 20 - and the identifier
10 is reused within the lifetime of the deck. -/
theorem C1_counterexample_ids_reset_across_calls :
    ((geo (init "c" "f" "6") [{ comment := "a", string := "s1" }]).2.map
        (fun g => g.num) = [some 10])
      ∧ ((geo (geo (init "c" "f" "6") [{ comment := "a", string := "s1" }]).1
            [{ comment := "b", string := "s2" }]).2.map
        (fun g => g.num) = [some 10]) :=
  ⟨rfl, rfl⟩

/-- C2: the runner never skips.  needs_to_run is hardwired to True at line
9 and the prior-artifact check at lines 22-24 is a stub whose body is
pass, so the decision is LAUNCH whether or not a prior artifact lookup is
supplied - in particular two successive calls with an unchanged deck and
a complete prior artifact both launch, against the required SKIP. -/
theorem C2_decide_always_launch (renderer : Option (String → Option String)) :
    runner.decide renderer = runner.Decision.LAUNCH := by
  cases renderer <;> rfl

/-- C3 counterexample: at the unrecognized selector 7, __init__ completes
normally - the outcome is ok, not the UnsupportedEngineError the claim
requires - and the command attribute is silently left unset. -/
theorem C3_counterexample_no_error_on_bad_selector :
    initOutcome "c" "f" "7" = InitOutcome.ok (init "c" "f" "7")
      ∧ initOutcome "c" "f" "7" ≠ initOutcomeSpec "c" "f" "7"
      ∧ (init "c" "f" "7").command = none := by
  refine ⟨rfl, ?_, rfl⟩
  decide

/-- C3 (amended): an engine selector outside the supported set 6, 5, x is
silently ignored: __init__ raises no error, and the command attribute is
left unset - no UnsupportedEngineError is raised anywhere in the code,
and the runner spawns whatever command string it is given without
validating a selector. -/
theorem C3_bad_selector_silently_ignored (comment filename flavor : String)
    (h6 : flavor ≠ "6") (h5 : flavor ≠ "5") (hx : flavor ≠ "x") :
    initOutcome comment filename flavor
        = InitOutcome.ok (init comment filename flavor)
      ∧ (init comment filename flavor).command = none := by
  refine ⟨rfl, ?_⟩
  simp [init, flavorCommand, h6, h5, hx]

/-- C3 witness: the amended theorem applied at the concrete selector 7. -/
theorem C3_bad_selector_witness :
    initOutcome "cw" "fw" "7" = InitOutcome.ok (init "cw" "fw" "7")
      ∧ (init "cw" "fw" "7").command = none :=
  C3_bad_selector_silently_ignored "cw" "fw" "7" (by decide) (by decide) (by decide)

/-- C4: on a deck whose distribution counter attribute was never created,
a source call with a non-empty entity list fails immediately with an
AttributeError - the failure the spec names MissingStateError - raised by
the first read of a never-assigned attribute in the loop body. -/
theorem C4_source_fails_without_counter (st : Deck) (ss : List SourceEnt)
    (hdn : st.def_num = none) (hne : ss ≠ []) :
    ∃ a, source st ss = Except.error (PyError.attributeError a) := by
  cases ss with
  | nil => exact absurd rfl hne
  | cons s rest =>
    cases hdb : st.data_block with
    | none => exact ⟨"data_block", by simp [source, hdb]⟩
    | some db => exact ⟨"def_num", by simp [source, hdb, hdn]⟩

/-- C4 witness: a freshly constructed deck has no counter, and a one-entry
source call on it fails with an AttributeError. -/
theorem C4_source_fails_witness :
    (init "c" "f" "6").def_num = none
      ∧ ([({ string := "s", dists := [] } : SourceEnt)] ≠ [])
      ∧ ∃ a, source (init "c" "f" "6") [{ string := "s", dists := [] }]
          = Except.error (PyError.attributeError a) :=
  ⟨rfl, by simp,
    C4_source_fails_without_counter (init "c" "f" "6")
      [{ string := "s", dists := [] }] rfl (by simp)⟩

/-- C5: run assigns no attribute of the deck, so as a state transformer it
returns the deck it was given, and calling it twice without mutating the
deck in between yields byte-identical output. -/
theorem C5_run_pure (st : Deck) :
    (runState st).2 = st
      ∧ (runState (runState st).2).1 = (runState st).1 :=
  ⟨rfl, rfl⟩

/-- C6: after a geo call every added geometry entity has its content
string verbatim inside the geometry block, and likewise for materials
after a matl call; source entities are never added at all - on every deck
constructible through the API a non-empty source call fails on the
missing data_block attribute - so the claim holds vacuously for them. -/
theorem C6_content_verbatim (st : Deck) (gs : List GeoEnt) (ms : List MatlEnt) :
    (∀ g ∈ gs, ∃ p q, (geo st gs).1.geo_block = p ++ g.string ++ q)
      ∧ (∀ m ∈ ms, ∃ p q, (matl st ms).1.matl_block = p ++ m.string ++ q)
      ∧ (∀ st2 : Deck, Reachable st2 → ∀ ss : List SourceEnt, ss ≠ [] →
          source st2 ss = Except.error (PyError.attributeError "data_block")) := by
  refine ⟨?_, ?_, ?_⟩
  · intro g hg
    simpa [geo] using geoFold_contains gs st.geo_block 10 g hg
  · intro m hm
    simpa [matl] using matlFold_contains ms st.matl_block 1 m hm
  · intro st2 h2 ss hne
    cases ss with
    | nil => exact absurd rfl hne
    | cons s rest => simp [source, (reachable_no_data st2 h2).1]

/-- C6 witness: the round-trip property instantiated on a one-entity
geometry call on a fresh deck. -/
theorem C6_content_verbatim_witness :
    ∃ p q, (geo (init "c" "f" "6") [{ comment := "a", string := "-1 SO 10" }]).1.geo_block
        = p ++ "-1 SO 10" ++ q :=
  (C6_content_verbatim (init "c" "f" "6")
      [{ comment := "a", string := "-1 SO 10" }] []).1
    { comment := "a", string := "-1 SO 10" } (by simp)

set_option maxRecDepth 8192 in
/-- C7: the shield scenario renders with geometry id 10 and material id 1,
the header whitespace collapsed to single spaces before wrapping, every
section banner exactly 78 characters wide inside its comment line, and
the full rendered deck equal to the expected text. -/
theorem C7_shield_scenario :
    shieldGeo.2.map (fun g => g.num) = [some 10]
      ∧ shieldMatl.2.map (fun m => m.num) = [some 1]
      ∧ shieldDeck0.comment = "Simple shielding test case with extra spaces"
      ∧ (pycenter " Cells " 78 '-').length = 78
      ∧ (pycenter " Geometry " 78 '-').length = 78
      ∧ (pycenter " Data " 78 '-').length = 78
      ∧ (pycenter " Materials " 78 '-').length = 78
      ∧ run shieldMatl.1 = "Shield Model\nc Simple shielding test case with extra spaces\nc ----------------------------------- Cells ------------------------------------\n\nc ---------------------------------- Geometry ----------------------------------\nouter sphere\n10    -1 SO 10\n\nc ------------------------------------ Data ------------------------------------\nc --------------------------------- Materials ----------------------------------\nlead\nm1 82000 1\n\n" :=
  ⟨rfl, rfl, rfl, rfl, rfl, rfl, rfl, rfl⟩

/-- C8 (amended): within a single call of the matl operation the assigned
numbers are 1, 2, ..., M in insertion order and are pairwise distinct.
The original claim extends this across successive calls on one deck,
which fails because line 68 re-initializes the counter to 1 on every
call; see the counterexample theorem. -/
theorem C8_matl_ids_within_one_call (st : Deck) (ms : List MatlEnt) :
    (matl st ms).2.map (fun m => m.num)
        = (List.range ms.length).map (fun i => some (i + 1))
      ∧ ((matl st ms).2.map (fun m => m.num)).Nodup := by
  have h : (matl st ms).2.map (fun m => m.num)
      = (List.range ms.length).map (fun i => some (i + 1)) := by
    simp only [matl]
    rw [matlFold_nums]
    apply List.map_congr_left
    intro i _
    simp only [Option.some.injEq]
    omega
  refine ⟨h, ?_⟩
  rw [h]
  exact (List.nodup_range _).map fun a b hab => by
    simp only [Option.some.injEq] at hab
    omega

/-- C8 counterexample: two successive single-entity matl calls on the same
deck both assign the number 1, so the ids of the M = 2 entities added
across the two calls are 1 and 1 - not 1 and 2 - and the identifier 1 is
reused within the deck. -/
theorem C8_counterexample_ids_reset_across_calls :
    ((matl (init "c" "f" "6") [{ comment := "a", string := "s1" }]).2.map
        (fun m => m.num) = [some 1])
      ∧ ((matl (matl (init "c" "f" "6") [{ comment := "a", string := "s1" }]).1
            [{ comment := "b", string := "s2" }]).2.map
        (fun m => m.num) = [some 1]) :=
  ⟨rfl, rfl⟩

/-- C9: the command the runner builds is exactly the invocation form the
spec states - engine command followed by the inp, out, run and mctal
artifact bindings, each path derived from the deck filename - wrapped for
detachment between a nohup prefix and a shell backgrounding suffix, so
the engine outlives the launching process. -/
theorem C9_command_form (filename command : String) :
    runner.buildCmd filename command
      = "nohup " ++ runner.specInvocationForm filename command ++ " & disown" := by
  have h : ("_tallies.out & disown" : String) = "_tallies.out" ++ " & disown" := rfl
  simp only [runner.buildCmd, runner.specInvocationForm, String.append_assoc]
  rw [h]

/-- C10: a source call with an empty entity list skips the loop body
entirely: it succeeds and returns the deck unchanged, even though neither
the distribution counter nor the data block attribute exists. -/
theorem C10_source_empty_noop (st : Deck) : source st [] = Except.ok st := rfl
